import Mathlib

/-!
Shallow embedding of the `ethers-wallet-connector` package.

The repository holds two versions of the connector class:
* version A: `src/src/index.js`;
* version B: `src/unnamed/part_002`.

Pure data and control flow are translated directly.  The injected browser
provider is modelled as an oracle of responses (permission-request outcomes,
account lists reported by `eth_accounts`, chain ids reported by
`eth_chainId`), and the event emitter as an accumulated list of events.
-/

namespace EWC

/-- Events emitted by the connector.  `failedToAddnetwork` is the spelling
used by version A (`src/src/index.js` line 237). -/
inductive Event where
  | failedToConnectWallet
  | invalidWallet
  | walletConnected (account : Option String)
  | walletDisconnected
  | networkSwitched (isCorrectNetwork : Bool)
  | failedToAddnetwork
  | browserProviderNotFound
  | walletConnectorInitialized
  | walletProviderNotFound
deriving DecidableEq, Repr

/-- Value returned by the awaited `execBeforeReconnect` callback: a JS boolean
or any non-boolean value (`typeof newShouldRetry !== 'boolean'`). -/
inductive CbRet where
  | bool (b : Bool)
  | nonBool
deriving DecidableEq, Repr

/-- Result of one call of the inner `reconnect` closure
(`src/src/index.js` lines 106-137). `ok` is its return value, `events` the
events it emits, `requested` whether it reached the `wallet_requestPermissions`
request (`#requestConnect`), `cbInvoked` whether `execBeforeReconnect` ran. -/
structure RecRes where
  ok : Bool
  events : List Event
  requested : Bool
  cbInvoked : Bool
deriving DecidableEq, Repr

/-- One call of the `reconnect` closure, for the call with
`tryConnectCount = k`.  `cbv` is the value the configured
`execBeforeReconnect` callback would return on this invocation (`none` when no
callback is configured), `permit` the outcome of `#requestConnect`,
`failEvent` the `failEventName` argument.

The source keeps a mutable `shouldRetry`: it starts `true`, is set to `false`
when `tryConnectCount > 3`, and, while still `true`, is replaced by the
callback result when that result is a boolean.  The nested `if`s below are the
flattening of that assignment sequence. -/
def reconnectCall (cbv : Option CbRet) (permit : Bool) (k : Nat)
    (failEvent : Event) : RecRes :=
  if 0 < k then
    if 3 < k then
      -- cap exceeded: shouldRetry is false, callback never consulted
      { ok := false, events := [failEvent], requested := false,
        cbInvoked := false }
    else
      match cbv with
      | some (CbRet.bool false) =>
          { ok := false, events := [failEvent], requested := false,
            cbInvoked := true }
      | some (CbRet.bool true) =>
          if permit then
            { ok := true, events := [], requested := true, cbInvoked := true }
          else
            { ok := false, events := [Event.failedToConnectWallet],
              requested := true, cbInvoked := true }
      | some CbRet.nonBool =>
          if permit then
            { ok := true, events := [], requested := true, cbInvoked := true }
          else
            { ok := false, events := [Event.failedToConnectWallet],
              requested := true, cbInvoked := true }
      | none =>
          if permit then
            { ok := true, events := [], requested := true, cbInvoked := false }
          else
            { ok := false, events := [Event.failedToConnectWallet],
              requested := true, cbInvoked := false }
  else
    -- first call: the `tryConnectCount > 0` gate is skipped entirely
    if permit then
      { ok := true, events := [], requested := true, cbInvoked := false }
    else
      { ok := false, events := [Event.failedToConnectWallet],
        requested := true, cbInvoked := false }

/-- Exit condition of the two `while` loops of `connectWallet`
(`src/src/index.js` lines 141 and 145): with an allowed address the loop runs
while the uppercased accounts do not include the uppercased address, without
one it runs while the account list is empty. -/
def acctMatch (sw : Option String) (l : List String) : Bool :=
  match sw with
  | some w => l.any (fun a => a.toUpper == w.toUpper)
  | none => !l.isEmpty

/-- The `failEventName` passed to `reconnect`: `invalidWallet` in the
allowed-address loop, the default `failedToConnectWallet` otherwise. -/
def failEventOf : Option String → Event
  | some _ => Event.invalidWallet
  | none => Event.failedToConnectWallet

/-- Result of the retry loop: `accounts = none` models the JS `accounts`
variable being set to `null` by a failing `reconnect`; `requests` counts the
`wallet_requestPermissions` requests issued inside the loop; `fuelOut` is true
only if the structural fuel ran out (proved unreachable below). -/
structure LoopRes where
  accounts : Option (List String)
  events : List Event
  requests : Nat
  fuelOut : Bool
deriving DecidableEq, Repr

/-- The `while (..) { if (! await reconnect(..)) break; }` loop of
`connectWallet`, as a fuelled recursion.  `k` is `tryConnectCount` (every
`reconnect` call that returns true increments it by one, and a call that
returns false ends the loop, so at the `k`-th call the counter is `k`).
`permit i` is the outcome of the i-th `#requestConnect` of the loop and
`accts i` the i-th `#getCurrentAccounts` reply inside the loop; `cb` gives the
callback replies when a callback is configured. -/
def goLoop (permit : Nat → Bool) (accts : Nat → List String)
    (cb : Option (Nat → CbRet)) (sw : Option String) :
    Nat → Nat → List String → List Event → Nat → LoopRes
  | 0, _, cur, evs, reqs =>
      { accounts := some cur, events := evs, requests := reqs, fuelOut := true }
  | fuel + 1, k, cur, evs, reqs =>
      if acctMatch sw cur then
        { accounts := some cur, events := evs, requests := reqs,
          fuelOut := false }
      else
        let r := reconnectCall (cb.map (fun f => f (k - 1))) (permit k) k
          (failEventOf sw)
        if r.ok then
          goLoop permit accts cb sw fuel (k + 1) (accts k) (evs ++ r.events)
            (reqs + (if r.requested then 1 else 0))
        else
          { accounts := none, events := evs ++ r.events,
            requests := reqs + (if r.requested then 1 else 0),
            fuelOut := false }

/-- The retry loop of `connectWallet` started on the account list read just
before it.  Fuel 6 suffices: the loop is proved below to finish within five
`reconnect` calls. -/
def connectLoop (permit : Nat → Bool) (accts : Nat → List String)
    (cb : Option (Nat → CbRet)) (sw : Option String)
    (initAccounts : List String) : LoopRes :=
  goLoop permit accts cb sw 6 0 initAccounts [] 0

lemma reconnectCall_ok_le (cbv : Option CbRet) (p : Bool) (k : Nat)
    (fe : Event) (h : (reconnectCall cbv p k fe).ok = true) : k ≤ 3 := by
  by_contra hk
  push_neg at hk
  have h0 : 0 < k := by omega
  simp [reconnectCall, h0, hk] at h

lemma reconnectCall_requested_le (cbv : Option CbRet) (p : Bool) (k : Nat)
    (fe : Event) (h : (reconnectCall cbv p k fe).requested = true) : k ≤ 3 := by
  by_contra hk
  push_neg at hk
  have h0 : 0 < k := by omega
  simp [reconnectCall, h0, hk] at h

lemma reconnectCall_cases (cbv : Option CbRet) (p : Bool) (k : Nat)
    (fe : Event) :
    ((reconnectCall cbv p k fe).ok = true ∧
      (reconnectCall cbv p k fe).events = []) ∨
    ((reconnectCall cbv p k fe).ok = false ∧
      ((reconnectCall cbv p k fe).events = [fe] ∨
        (reconnectCall cbv p k fe).events = [Event.failedToConnectWallet])) := by
  unfold reconnectCall
  repeat' split
  all_goals simp

lemma goLoop_fuelOut (permit : Nat → Bool) (accts : Nat → List String)
    (cb : Option (Nat → CbRet)) (sw : Option String) (fuel k : Nat)
    (cur : List String) (evs : List Event) (reqs : Nat)
    (h : 5 - k < fuel) :
    (goLoop permit accts cb sw fuel k cur evs reqs).fuelOut = false := by
  induction fuel generalizing k cur evs reqs with
  | zero => omega
  | succ f ih =>
    rw [goLoop]
    split
    · rfl
    · dsimp only
      split
      · next hok =>
        exact ih (k + 1) _ _ _
          (by have := reconnectCall_ok_le _ _ _ _ hok; omega)
      · rfl

lemma goLoop_requests (permit : Nat → Bool) (accts : Nat → List String)
    (cb : Option (Nat → CbRet)) (sw : Option String) (fuel k : Nat)
    (cur : List String) (evs : List Event) (reqs : Nat) :
    (goLoop permit accts cb sw fuel k cur evs reqs).requests ≤
      reqs + (4 - k) := by
  induction fuel generalizing k cur evs reqs with
  | zero => simp [goLoop]
  | succ f ih =>
    rw [goLoop]
    split
    · simp
    · dsimp only
      split
      · next hok =>
        have hk := reconnectCall_ok_le _ _ _ _ hok
        calc (goLoop permit accts cb sw f (k + 1) (accts k) _ _).requests
            ≤ _ + (4 - (k + 1)) := ih (k + 1) _ _ _
          _ ≤ reqs + (4 - k) := by
              split <;> omega
      · next hok =>
        simp only
        split
        · next hreq =>
          have hk := reconnectCall_requested_le _ _ _ _ hreq
          omega
        · omega

lemma goLoop_events_mem (permit : Nat → Bool) (accts : Nat → List String)
    (cb : Option (Nat → CbRet)) (sw : Option String) (fuel k : Nat)
    (cur : List String) (evs : List Event) (reqs : Nat) (e : Event)
    (h : e ∈ (goLoop permit accts cb sw fuel k cur evs reqs).events) :
    e ∈ evs ∨ e = failEventOf sw ∨ e = Event.failedToConnectWallet := by
  induction fuel generalizing k cur evs reqs with
  | zero => simpa [goLoop] using Or.inl h
  | succ f ih =>
    rw [goLoop] at h
    split at h
    · exact Or.inl h
    · dsimp only at h
      split at h
      · rcases ih (k + 1) (accts k) _ _ h with hin | hrest
        · rcases List.mem_append.mp hin with hl | hr
          · exact Or.inl hl
          · rcases reconnectCall_cases (cb.map (fun f => f (k - 1)))
              (permit k) k (failEventOf sw) with ⟨_, hev⟩ | ⟨_, hev | hev⟩ <;>
              rw [hev] at hr <;> simp_all
        · exact Or.inr hrest
      · simp only at h
        rcases List.mem_append.mp h with hl | hr
        · exact Or.inl hl
        · rcases reconnectCall_cases (cb.map (fun f => f (k - 1)))
            (permit k) k (failEventOf sw) with ⟨_, hev⟩ | ⟨_, hev | hev⟩ <;>
            rw [hev] at hr <;> simp_all

lemma goLoop_accounts_match (permit : Nat → Bool) (accts : Nat → List String)
    (cb : Option (Nat → CbRet)) (sw : Option String) (fuel k : Nat)
    (cur : List String) (evs : List Event) (reqs : Nat) (l : List String)
    (hfo : (goLoop permit accts cb sw fuel k cur evs reqs).fuelOut = false)
    (hl : (goLoop permit accts cb sw fuel k cur evs reqs).accounts = some l) :
    acctMatch sw l = true := by
  induction fuel generalizing k cur evs reqs with
  | zero => simp [goLoop] at hfo
  | succ f ih =>
    rw [goLoop] at hfo hl
    split at hl
    · next hm =>
      simp only at hl
      cases hl
      simp_all
    · dsimp only at hfo hl
      split at hl
      · exact ih (k + 1) (accts k) _ _ (by simp_all) hl
      · simp_all

lemma goLoop_nomatch (permit : Nat → Bool) (accts : Nat → List String)
    (cb : Option (Nat → CbRet)) (sw : Option String) (fuel k : Nat)
    (cur : List String) (evs : List Event) (reqs : Nat)
    (hcur : acctMatch sw cur = false)
    (hall : ∀ i, acctMatch sw (accts i) = false)
    (hfuel : 5 - k < fuel) :
    (goLoop permit accts cb sw fuel k cur evs reqs).accounts = none ∧
      (failEventOf sw ∈ (goLoop permit accts cb sw fuel k cur evs reqs).events ∨
        Event.failedToConnectWallet ∈
          (goLoop permit accts cb sw fuel k cur evs reqs).events) := by
  induction fuel generalizing k cur evs reqs with
  | zero => omega
  | succ f ih =>
    rw [goLoop]
    split
    · simp_all
    · dsimp only
      split
      · next hok =>
        exact ih (k + 1) (accts k) _ _ (hall k)
          (by have := reconnectCall_ok_le _ _ _ _ hok; omega)
      · refine ⟨rfl, ?_⟩
        rcases reconnectCall_cases (cb.map (fun f => f (k - 1)))
            (permit k) k (failEventOf sw) with ⟨hok, _⟩ | ⟨_, hev | hev⟩
        · simp_all
        · exact Or.inl (by rw [hev]; simp)
        · exact Or.inr (by rw [hev]; simp)

/-- The connector state relevant to the connection flow: the private fields
`#account`, `#signer` and `#currentChainId` (`none` models JS `undefined`). -/
structure WState where
  account : Option String
  signer : Option String
  currentChainId : Option Nat
deriving DecidableEq, Repr

/-- Oracle of browser-provider responses for one `connectWallet` execution:
`chain1` is the `eth_chainId` reply of the initial `#detectNetwork`, `addOk`
the outcome of the `wallet_addEthereumChain` request, `chain2` the
`eth_chainId` reply after it, `forcePermit` the outcome of the
`#requestConnect` issued for `forceNewConnect`, `initAccounts` the
`eth_accounts` reply before the loop (`none`: not an array), and
`permit` / `accts` / `cb` the in-loop responses. -/
structure ConnEnv where
  chain1 : Nat
  addOk : Bool
  chain2 : Nat
  forcePermit : Bool
  initAccounts : Option (List String)
  permit : Nat → Bool
  accts : Nat → List String
  cb : Option (Nat → CbRet)

/-- `#detectNetwork(true)` followed by `#addOrSwitchNetwork` when needed,
version A (`src/src/index.js` lines 195-244): stores the current chain id; on
a mismatch, a failing `wallet_addEthereumChain` request emits
`failedToAddnetwork` and returns false, otherwise the chain id is re-read and
compared with the configured `chain_id`. -/
def detectNetworkTrueV1 (cfg : Nat) (env : ConnEnv) (st : WState) :
    Bool × WState × List Event :=
  if env.chain1 == cfg then (true, { st with currentChainId := some env.chain1 }, [])
  else if env.addOk then
    (env.chain2 == cfg, { st with currentChainId := some env.chain2 }, [])
  else
    (false, { st with currentChainId := some env.chain1 },
      [Event.failedToAddnetwork])

/-- `this.#account = accounts[account_index]` (`src/src/index.js` lines
151-152): with an allowed address, the first account whose uppercasing equals
the uppercased address (`indexOf` on the uppercased list); otherwise
`accounts[0]`. -/
def selectAccount (sw : Option String) (l : List String) : Option String :=
  match sw with
  | some w => l.find? (fun a => a.toUpper == w.toUpper)
  | none => l.head?

/-- Result of `connectWallet`: its return value (`none` = `undefined`), the
final state, and the emitted events. -/
structure ConnRes where
  ret : Option String
  state : WState
  events : List Event
deriving DecidableEq, Repr

/-- `connectWallet` of version A (`src/src/index.js` lines 82-159), with
`cfg` the configured `chain_id` and `sw` the allowed wallet address
(`#shouldWalletAddress`).  The `forceNewConnect` function case is resolved to
its boolean result. -/
def connectWalletV1 (cfg : Nat) (sw : Option String) (env : ConnEnv)
    (forceNewConnect : Bool) (st : WState) : ConnRes :=
  let d := detectNetworkTrueV1 cfg env st
  if d.1 then
    if forceNewConnect && !env.forcePermit then
      { ret := none, state := d.2.1,
        events := d.2.2 ++ [Event.failedToConnectWallet] }
    else
      let lr := connectLoop env.permit env.accts env.cb sw
        (env.initAccounts.getD [])
      match lr.accounts with
      | none =>
          { ret := d.2.1.account, state := d.2.1, events := d.2.2 ++ lr.events }
      | some l =>
          let acct := selectAccount sw l
          { ret := acct,
            state := { d.2.1 with account := acct, signer := acct },
            events := d.2.2 ++ lr.events ++ [Event.walletConnected acct] }
  else
    { ret := none, state := d.2.1, events := d.2.2 }

/-- `disconnectWallet` of version A (`src/src/index.js` lines 161-167): when
connected, clear `#account` and emit `walletDisconnected`. -/
def disconnectWalletV1 (st : WState) : WState × List Event :=
  if st.account.isSome then
    ({ st with account := none }, [Event.walletDisconnected])
  else (st, [])

/-- `#detectNetwork()` with `askUserToSwitch = false`, version A
(`src/src/index.js` lines 195-210): store the freshly read chain id; on a
mismatch call `disconnectWallet` and return false. -/
def detectNetworkFalseV1 (cfg newChain : Nat) (st : WState) :
    Bool × WState × List Event :=
  if newChain == cfg then (true, { st with currentChainId := some newChain }, [])
  else
    let d := disconnectWalletV1 { st with currentChainId := some newChain }
    (false, d.1, d.2)

/-- The `chainChanged` listener registered by `init`
(`src/src/index.js` lines 54-57): re-detect the network and emit
`networkSwitched` with the result. -/
def chainChangedHandlerV1 (cfg newChain : Nat) (st : WState) :
    WState × List Event :=
  let d := detectNetworkFalseV1 cfg newChain st
  (d.2.1, d.2.2 ++ [Event.networkSwitched d.1])

/-- The network descriptor (`shouldNetworkData`); `none` in a field models a
JS `undefined` field. -/
structure NetworkData where
  chain_id : Option Nat
  chain_name : Option String
  currency_name : Option String
  currency_symbol : Option String
  rpc_url : Option String
  currency_decimals : Option Nat
  block_explorer_url : Option String
deriving DecidableEq, Repr

/-- `#checkShouldNetworkDataIsCorrect` (`src/src/index.js` lines 286-297):
the thrown message, or `none` when the descriptor passes.  The outer `none`
argument covers both `undefined` and `null` descriptors; the required fields
are tested in the order of the `requiredOptions` array and the first
`undefined` one throws. -/
def checkShouldNetworkDataIsCorrect (nd : Option NetworkData) : Option String :=
  match nd with
  | none =>
      some "You should initialize EthersWalletConnector with chainData in first parameter."
  | some d =>
      if d.chain_id = none then
        some "chain_id option is required in shouldNetworkData."
      else if d.chain_name = none then
        some "chain_name option is required in shouldNetworkData."
      else if d.currency_name = none then
        some "currency_name option is required in shouldNetworkData."
      else if d.currency_symbol = none then
        some "currency_symbol option is required in shouldNetworkData."
      else if d.rpc_url = none then
        some "rpc_url option is required in shouldNetworkData."
      else none

/-- `this.#shouldNetworkData?.chain_id ?? 0`, the configured chain id as used
by `isCorrectNetwork`. -/
def chainIdOf (nd : Option NetworkData) : Nat :=
  (nd.bind (fun d => d.chain_id)).getD 0

/-- Result of `init`: `error` is the thrown message if any,
`listenerRegistered` whether the `chainChanged` listener was attached. -/
structure InitRes where
  error : Option String
  listenerRegistered : Bool
  isInitalized : Bool
  state : WState
  events : List Event

/-- `init` of version A (`src/src/index.js` lines 31-65).  `alreadyInit` is
the incoming `#isInitalized` flag, `providerFound` whether
`window.ethereum ?? detectEthereumProvider()` yielded a provider, and
`autoConnect` the (function-resolved) flag.  On the success path the
`chainChanged` listener is registered after the connect / network detection
step, then `walletConnectorInitialized` is emitted. -/
def initV1 (alreadyInit : Bool) (nd : Option NetworkData) (sw : Option String)
    (env : ConnEnv) (autoConnect : Bool) (providerFound : Bool)
    (st : WState) : InitRes :=
  if alreadyInit then
    { error := some "EthersWalletConnector is already initialized.",
      listenerRegistered := false, isInitalized := true, state := st,
      events := [] }
  else
    match checkShouldNetworkDataIsCorrect nd with
    | some m =>
        { error := some m, listenerRegistered := false, isInitalized := false,
          state := st, events := [] }
    | none =>
        if providerFound then
          let cfg := chainIdOf nd
          let r :=
            if autoConnect then
              let c := connectWalletV1 cfg sw env false st
              (c.state, c.events)
            else
              let d := detectNetworkTrueV1 cfg env st
              (d.2.1, d.2.2)
          { error := none, listenerRegistered := true, isInitalized := true,
            state := r.1,
            events := r.2 ++ [Event.walletConnectorInitialized] }
        else
          { error := some "You should install MetaMask.",
            listenerRegistered := false, isInitalized := false, state := st,
            events := [Event.browserProviderNotFound] }

/-- Result of version B `disconnectWallet`. -/
structure D2Res where
  err : Option String
  state : WState
  events : List Event
deriving DecidableEq, Repr

/-- `disconnectWallet` of version B (`src/unnamed/part_002` lines 186-207):
`#checkIfAllowed` emits `walletProviderNotFound` and throws when no provider
is held; when connected, a `wallet_revokePermissions` request is issued and
only on its success is the account cleared and `walletDisconnected` emitted
(a failing request is caught and the method returns `false`, leaving the
account in place). -/
def disconnectWalletV2 (providerPresent revokeOk : Bool) (st : WState) :
    D2Res :=
  if providerPresent then
    if st.account.isSome then
      if revokeOk then
        { err := none, state := { st with account := none },
          events := [Event.walletDisconnected] }
      else
        { err := none, state := st, events := [] }
    else
      { err := none, state := st, events := [] }
  else
    { err := some "Wallet provider not found.", state := st,
      events := [Event.walletProviderNotFound] }

/-- A JS value as stored in the private `#account` field: `undefined`,
`null`, or a string. -/
inductive JSVal where
  | undef
  | nullv
  | str (s : String)
deriving DecidableEq, Repr

/-- State read by the public getters (both versions declare them with
identical bodies): the held provider and signer references (abstracted to
ids), `#account`, `#currentChainId`, and the resolved
`#shouldNetworkData?.chain_id` (`none` when the descriptor or the field is
absent). -/
structure GetterState where
  provider : Option Nat
  signer : Option Nat
  account : JSVal
  currentChainId : Option Nat
  cfgChainId : Option Nat
deriving DecidableEq, Repr

/-- `provider = () => this.#provider` (version A line 24). -/
def providerGetterV1 (s : GetterState) : Option Nat := s.provider

/-- `signer = () => this.#signer` (version A line 25). -/
def signerGetterV1 (s : GetterState) : Option Nat := s.signer

/-- `account = () => this.#account ?? undefined` (version A line 26). -/
def accountGetterV1 (s : GetterState) : JSVal :=
  match s.account with
  | JSVal.undef => JSVal.undef
  | JSVal.nullv => JSVal.undef
  | v => v

/-- `currentChainId = () => this.#currentChainId` (version A line 27). -/
def currentChainIdGetterV1 (s : GetterState) : Option Nat := s.currentChainId

/-- `isCorrectNetwork = () => this.#currentChainId ===
(this.#shouldNetworkData?.chain_id ?? 0)` (version A line 28); an undefined
`#currentChainId` is strictly unequal to any number. -/
def isCorrectNetworkGetterV1 (s : GetterState) : Bool :=
  match s.currentChainId with
  | some n => n == s.cfgChainId.getD 0
  | none => false

/-- `isWalletConnected = () => !(this.#account === null || this.#account ===
undefined)` (version A line 29). -/
def isWalletConnectedGetterV1 (s : GetterState) : Bool :=
  match s.account with
  | JSVal.undef => false
  | JSVal.nullv => false
  | _ => true

/-- `provider = () => this.#provider` (version B line 25). -/
def providerGetterV2 (s : GetterState) : Option Nat := s.provider

/-- `signer = () => this.#signer` (version B line 26). -/
def signerGetterV2 (s : GetterState) : Option Nat := s.signer

/-- `account = () => this.#account ?? undefined` (version B line 27). -/
def accountGetterV2 (s : GetterState) : JSVal :=
  match s.account with
  | JSVal.undef => JSVal.undef
  | JSVal.nullv => JSVal.undef
  | v => v

/-- `currentChainId = () => this.#currentChainId` (version B line 28). -/
def currentChainIdGetterV2 (s : GetterState) : Option Nat := s.currentChainId

/-- `isCorrectNetwork` (version B line 29). -/
def isCorrectNetworkGetterV2 (s : GetterState) : Bool :=
  match s.currentChainId with
  | some n => n == s.cfgChainId.getD 0
  | none => false

/-- `isWalletConnected` (version B line 30). -/
def isWalletConnectedGetterV2 (s : GetterState) : Bool :=
  match s.account with
  | JSVal.undef => false
  | JSVal.nullv => false
  | _ => true

/-- A thrown ethers error, as consulted by the `send` wrapper:
`infoError` models a non-nullish `e?.info?.error`, `innerError` a non-nullish
`e?.innerError`, and `tag` distinguishes error objects. -/
structure Err where
  infoError : Option Nat
  innerError : Option Nat
  tag : Nat
deriving DecidableEq, Repr

/-- `e?.info?.error ?? (e?.innerError ?? e)` (`src/src/index.js` line 279). -/
inductive SendOut (ρ : Type) where
  | receipt (r : ρ)
  | errInfo (x : Nat)
  | errInner (x : Nat)
  | errWhole (e : Err)
deriving DecidableEq, Repr

def extractErr (ρ : Type) (e : Err) : SendOut ρ :=
  match e.infoError with
  | some x => SendOut.errInfo x
  | none =>
      match e.innerError with
      | some x => SendOut.errInner x
      | none => SendOut.errWhole e

/-- The `call` method of the wrapper returned by `contract`
(`src/src/index.js` lines 259-268; identical shape for `signedCall` in
version B lines 233-242).  `outcome` is the underlying
`contract[methodName](...)` result, `onError` the optional handler whose
`none` result models a nullish return (`onError(e) ?? null`).  The result is
`Except.ok` in every case: the `catch` swallows the throw, returning the
handler result (null if nullish) or null. -/
def callWrapper {α : Type} (outcome : Except Err α)
    (onError : Option (Err → Option α)) : Except Err (Option α) :=
  match outcome with
  | Except.ok v => Except.ok (some v)
  | Except.error e =>
      match onError with
      | some h => Except.ok (h e)
      | none => Except.ok none

/-- The `send` method of the wrapper (`src/src/index.js` lines 270-281):
`callOutcome` is the underlying transaction call, `waitOutcome` the
`txn.wait()` result.  A throw from either is caught and the extracted error
object is returned. -/
def sendWrapper (ρ : Type) (callOutcome : Except Err Unit)
    (waitOutcome : Except Err ρ) : Except Err (SendOut ρ) :=
  match callOutcome with
  | Except.error e => Except.ok (extractErr ρ e)
  | Except.ok _ =>
      match waitOutcome with
      | Except.error e => Except.ok (extractErr ρ e)
      | Except.ok r => Except.ok (SendOut.receipt r)

/-- A constructed `new Contract(contractAddress, ABI, runner)` instance; two
instances constructed at different times are distinguished by their recorded
address and ABI. -/
structure ContractInst where
  address : String
  abi : Nat
deriving DecidableEq, Repr

/-- The `#signerContract` / `#providerContract` caches, keyed by contract
address. -/
abbrev Cache := List (String × ContractInst)

def cacheGet (c : Cache) (a : String) : Option ContractInst :=
  (List.find? (fun p => p.1 == a) c).map (fun p => p.2)

def cachePut (c : Cache) (a : String) (inst : ContractInst) : Cache :=
  List.append c [(a, inst)]

/-- `contract` of version A (`src/src/index.js` lines 246-255), restricted to
its cache behaviour: `this.#signerContract[contractAddress] ??= new
Contract(..)` (or the `#providerContract` cache when `isSigner` is false).
The preceding `connectWallet` call for a disconnected wallet touches neither
cache.  Returns the updated caches and the `Contract` instance the wrapper
closes over. -/
def contractV1 (sc pc : Cache) (addr : String) (abi : Nat)
    (isSigner : Bool) : (Cache × Cache) × ContractInst :=
  if isSigner then
    match cacheGet sc addr with
    | some c => ((sc, pc), c)
    | none => ((cachePut sc addr { address := addr, abi := abi }, pc),
        { address := addr, abi := abi })
  else
    match cacheGet pc addr with
    | some c => ((sc, pc), c)
    | none => ((sc, cachePut pc addr { address := addr, abi := abi }),
        { address := addr, abi := abi })

/-- `contract` of version B (`src/unnamed/part_002` lines 209-218), cache
behaviour: both the `#providerContract` and the `#signerContract` entry for
the address are fetched (created on a miss), and the returned wrapper closes
over the pair `(contractCaller, contractSigner)`. -/
def contractV2 (sc pc : Cache) (addr : String) (abi : Nat) :
    (Cache × Cache) × (ContractInst × ContractInst) :=
  let caller :=
    match cacheGet pc addr with
    | some c => (pc, c)
    | none => (cachePut pc addr { address := addr, abi := abi },
        { address := addr, abi := abi })
  let signerC :=
    match cacheGet sc addr with
    | some c => (sc, c)
    | none => (cachePut sc addr { address := addr, abi := abi },
        { address := addr, abi := abi })
  ((signerC.1, caller.1), (caller.2, signerC.2))

lemma detectNetworkTrueV1_events (cfg : Nat) (env : ConnEnv) (st : WState) :
    (detectNetworkTrueV1 cfg env st).2.2 = [] ∨
      (detectNetworkTrueV1 cfg env st).2.2 = [Event.failedToAddnetwork] := by
  unfold detectNetworkTrueV1
  repeat' split
  all_goals simp

lemma detectNetworkTrueV1_account (cfg : Nat) (env : ConnEnv) (st : WState) :
    (detectNetworkTrueV1 cfg env st).2.1.account = st.account ∧
      (detectNetworkTrueV1 cfg env st).2.1.signer = st.signer := by
  unfold detectNetworkTrueV1
  repeat' split
  all_goals simp

lemma detectNetworkTrueV1_true_events (cfg : Nat) (env : ConnEnv) (st : WState)
    (h : (detectNetworkTrueV1 cfg env st).1 = true) :
    (detectNetworkTrueV1 cfg env st).2.2 = [] := by
  unfold detectNetworkTrueV1 at h ⊢
  by_cases h1 : (env.chain1 == cfg) = true
  · simp [h1]
  · by_cases h2 : env.addOk = true
    · simp [h1, h2]
    · simp [h1, h2] at h

lemma detectNetworkTrueV1_false (cfg : Nat) (env : ConnEnv) (st : WState)
    (h1 : env.chain1 ≠ cfg) (h2 : env.addOk = false ∨ env.chain2 ≠ cfg) :
    (detectNetworkTrueV1 cfg env st).1 = false := by
  rcases h2 with h2 | h2
  · simp [detectNetworkTrueV1, h1, h2]
  · by_cases ha : env.addOk <;> simp [detectNetworkTrueV1, h1, h2, ha]

lemma connectWalletV1_events_mem (cfg : Nat) (sw : Option String)
    (env : ConnEnv) (fnc : Bool) (st : WState) (e : Event)
    (h : e ∈ (connectWalletV1 cfg sw env fnc st).events) :
    e = Event.failedToAddnetwork ∨ e = Event.failedToConnectWallet ∨
      e = failEventOf sw ∨
      ∃ l, (connectLoop env.permit env.accts env.cb sw
          (env.initAccounts.getD [])).accounts = some l ∧
        e = Event.walletConnected (selectAccount sw l) := by
  have hd := detectNetworkTrueV1_events cfg env st
  unfold connectWalletV1 at h
  dsimp only at h
  split at h
  · split at h
    · rcases List.mem_append.mp h with h1 | h1
      · rcases hd with hd | hd <;> rw [hd] at h1 <;> simp_all
      · simp_all
    · split at h
      · next heq =>
        rcases List.mem_append.mp h with h1 | h1
        · rcases hd with hd | hd <;> rw [hd] at h1 <;> simp_all
        · rcases goLoop_events_mem _ _ _ _ _ _ _ _ _ _ h1 with h2 | h2 | h2
          · simp at h2
          · exact Or.inr (Or.inr (Or.inl h2))
          · exact Or.inr (Or.inl h2)
      · next l heq =>
        rcases List.mem_append.mp h with h1 | h1
        · rcases List.mem_append.mp h1 with h3 | h3
          · rcases hd with hd | hd <;> rw [hd] at h3 <;> simp_all
          · rcases goLoop_events_mem _ _ _ _ _ _ _ _ _ _ h3 with h2 | h2 | h2
            · simp at h2
            · exact Or.inr (Or.inr (Or.inl h2))
            · exact Or.inr (Or.inl h2)
        · simp only [List.mem_singleton] at h1
          exact Or.inr (Or.inr (Or.inr ⟨l, heq, h1⟩))
  · rcases hd with hd | hd <;> rw [hd] at h <;> simp_all

/-- A connector state with nothing connected. -/
def st0 : WState := { account := none, signer := none, currentChainId := none }

/-- Provider oracle used by concrete runs: correct chain 17, every
permission request granted, `eth_accounts` always empty, no callback. -/
def envW : ConnEnv :=
  { chain1 := 17, addOk := true, chain2 := 17, forcePermit := true,
    initAccounts := some [], permit := fun _ => true, accts := fun _ => [],
    cb := none }

/-- Provider oracle where the chain is correct but every
`wallet_requestPermissions` request is denied. -/
def envDeny : ConnEnv :=
  { chain1 := 17, addOk := true, chain2 := 17, forcePermit := true,
    initAccounts := some [], permit := fun _ => false, accts := fun _ => [],
    cb := none }

/-- Provider oracle on a wrong chain (chain 1) whose add-network request is
rejected. -/
def envWrongNet : ConnEnv :=
  { chain1 := 1, addOk := false, chain2 := 0, forcePermit := true,
    initAccounts := some [], permit := fun _ => true, accts := fun _ => [],
    cb := none }

/-- Provider oracle starting on a wrong chain (chain 1) that lands on chain
17 after a successful add-network request, grants every permission request,
and always reports an empty account list. -/
def envSwitch : ConnEnv :=
  { chain1 := 1, addOk := true, chain2 := 17, forcePermit := true,
    initAccounts := some [], permit := fun _ => true, accts := fun _ => [],
    cb := none }

/-- A complete, valid network descriptor. -/
def ndOk : NetworkData :=
  { chain_id := some 97, chain_name := some "BNB Smart Chain Testnet",
    currency_name := some "BNB", currency_symbol := some "tBNB",
    rpc_url := some "rpc", currency_decimals := some 18,
    block_explorer_url := some "explorer" }

/-- C1 counterexample: with the correct network, an allowed address the
provider never reports, every permission request granted and no callback, the
retry loop of `connectWallet` issues four `wallet_requestPermissions`
requests after the initial account read, not at most three as claimed:
`tryConnectCount` values 0, 1, 2 and 3 all pass the `tryConnectCount > 3`
gate. -/
theorem c1_counterexample :
    ¬ (connectLoop (fun _ => true) (fun _ => []) none (some "0XA")
        []).requests ≤ 3 := by decide

/-- C1 (amended): the account-acquisition retry loop of `connectWallet`
always terminates — within six iterations, witnessed by the fuel never
running out — and performs at most 4 connection attempts
(`wallet_requestPermissions` requests) after the initial account read: the
initial attempt plus at most 3 callback-gated retries. -/
theorem c1_retry_loop_cap (permit : Nat → Bool) (accts : Nat → List String)
    (cb : Option (Nat → CbRet)) (sw : Option String)
    (initAccounts : List String) :
    (connectLoop permit accts cb sw initAccounts).requests ≤ 4 ∧
      (connectLoop permit accts cb sw initAccounts).fuelOut = false := by
  constructor
  · simpa using goLoop_requests permit accts cb sw 6 0 initAccounts [] 0
  · exact goLoop_fuelOut permit accts cb sw 6 0 initAccounts [] 0 (by omega)

/-- C4: when the provider's chain id differs from the configured `chain_id`
and the add/switch-network request does not end on the expected chain,
`connectWallet` returns `undefined`, leaves `#account` and `#signer`
untouched, and emits no `walletConnected`. -/
theorem c4_network_precondition (cfg : Nat) (sw : Option String)
    (env : ConnEnv) (fnc : Bool) (st : WState)
    (h1 : env.chain1 ≠ cfg) (h2 : env.addOk = false ∨ env.chain2 ≠ cfg) :
    (connectWalletV1 cfg sw env fnc st).ret = none ∧
      (connectWalletV1 cfg sw env fnc st).state.account = st.account ∧
      (connectWalletV1 cfg sw env fnc st).state.signer = st.signer ∧
      ∀ a, Event.walletConnected a ∉ (connectWalletV1 cfg sw env fnc st).events := by
  have hf := detectNetworkTrueV1_false cfg env st h1 h2
  have hacc := detectNetworkTrueV1_account cfg env st
  have hev := detectNetworkTrueV1_events cfg env st
  unfold connectWalletV1
  dsimp only
  rw [if_neg (by simp [hf])]
  refine ⟨rfl, hacc.1, hacc.2, ?_⟩
  intro a hmem
  rcases hev with hev | hev <;> rw [hev] at hmem <;> simp at hmem

/-- C4 witness: a concrete run on chain 1 with configured chain 5 whose
add-network request is rejected. -/
theorem c4_witness :
    (connectWalletV1 5 none envWrongNet false st0).ret = none ∧
      (connectWalletV1 5 none envWrongNet false st0).state.account = st0.account ∧
      (connectWalletV1 5 none envWrongNet false st0).state.signer = st0.signer ∧
      ∀ a, Event.walletConnected a ∉ (connectWalletV1 5 none envWrongNet false st0).events :=
  c4_network_precondition 5 none envWrongNet false st0 (by decide) (Or.inl rfl)

/-- C5: on every retry iteration with `tryConnectCount` between 1 and 3, a
configured `execBeforeReconnect` callback is invoked; a `false` return
cancels the retry (no permission request, the failure event is emitted and
the loop stops), while `true`, a non-boolean value, or no configured
callback lets the retry proceed to the permission request. -/
theorem c5_callback_gates (cbv : Option CbRet) (p : Bool) (k : Nat)
    (fe : Event) (hk : 0 < k) (hk3 : k ≤ 3) :
    (cbv.isSome = true → (reconnectCall cbv p k fe).cbInvoked = true) ∧
      (cbv = some (CbRet.bool false) →
        (reconnectCall cbv p k fe).ok = false ∧
          (reconnectCall cbv p k fe).requested = false ∧
          (reconnectCall cbv p k fe).events = [fe]) ∧
      ((cbv = some (CbRet.bool true) ∨ cbv = some CbRet.nonBool ∨ cbv = none) →
        (reconnectCall cbv p k fe).requested = true) := by
  have h3 : ¬ 3 < k := by omega
  unfold reconnectCall
  rw [if_pos hk, if_neg h3]
  cases cbv with
  | none =>
      refine ⟨by simp, by simp, fun _ => ?_⟩
      cases p <;> simp
  | some v =>
      cases v with
      | bool b =>
          cases b with
          | false => exact ⟨fun _ => rfl, fun _ => ⟨rfl, rfl, rfl⟩,
              fun hor => by rcases hor with h | h | h <;> simp_all⟩
          | true =>
              refine ⟨fun _ => ?_, by simp, fun _ => ?_⟩ <;> cases p <;> simp
      | nonBool =>
          refine ⟨fun _ => ?_, by simp, fun _ => ?_⟩ <;> cases p <;> simp

/-- C5 witness: at `tryConnectCount = 1` with a callback answering `false`,
the retry is cancelled and `invalidWallet` is emitted. -/
theorem c5_witness :
    ((some (CbRet.bool false)).isSome = true →
      (reconnectCall (some (CbRet.bool false)) true 1 Event.invalidWallet).cbInvoked = true) ∧
      (some (CbRet.bool false) = some (CbRet.bool false) →
        (reconnectCall (some (CbRet.bool false)) true 1 Event.invalidWallet).ok = false ∧
          (reconnectCall (some (CbRet.bool false)) true 1 Event.invalidWallet).requested = false ∧
          (reconnectCall (some (CbRet.bool false)) true 1 Event.invalidWallet).events = [Event.invalidWallet]) ∧
      ((some (CbRet.bool false) = some (CbRet.bool true) ∨
          some (CbRet.bool false) = some CbRet.nonBool ∨
          some (CbRet.bool false) = none) →
        (reconnectCall (some (CbRet.bool false)) true 1 Event.invalidWallet).requested = true) :=
  c5_callback_gates (some (CbRet.bool false)) true 1 Event.invalidWallet
    (by decide) (by decide)

/-- C3 counterexample: with an allowed address the provider never reports
and a denied `wallet_requestPermissions` request, the run ends by emitting
`failedToConnectWallet`, not `invalidWallet` as the claim states. -/
theorem c3_counterexample :
    Event.invalidWallet ∉ (connectWalletV1 17 (some "0XA") envDeny false st0).events ∧
      Event.failedToConnectWallet ∈ (connectWalletV1 17 (some "0XA") envDeny false st0).events := by
  decide

/-- C3 (amended): with an allowed wallet address configured, whenever
`walletConnected` is emitted the stored account equals the allowed address up
to letter case; and on every run that passes the network check — whether the
provider was already on the configured chain or reached it through a
successful switch, and whatever the `forceNewConnect` argument — if the
provider never reports that address among its accounts, the run ends by
emitting `invalidWallet` or `failedToConnectWallet` (the latter when a
permission request is denied), without setting the account and without
emitting `walletConnected`. -/
theorem c3_allowed_address (cfg : Nat) (w : String) (env : ConnEnv)
    (fnc : Bool) (st : WState) :
    (∀ a, Event.walletConnected a ∈ (connectWalletV1 cfg (some w) env fnc st).events →
      ∃ s, a = some s ∧ s.toUpper = w.toUpper) ∧
      ((detectNetworkTrueV1 cfg env st).1 = true →
        acctMatch (some w) (env.initAccounts.getD []) = false →
        (∀ i, acctMatch (some w) (env.accts i) = false) →
        (connectWalletV1 cfg (some w) env fnc st).state.account = st.account ∧
          (Event.invalidWallet ∈ (connectWalletV1 cfg (some w) env fnc st).events ∨
            Event.failedToConnectWallet ∈ (connectWalletV1 cfg (some w) env fnc st).events) ∧
          ∀ a, Event.walletConnected a ∉ (connectWalletV1 cfg (some w) env fnc st).events) := by
  constructor
  · intro a ha
    rcases connectWalletV1_events_mem cfg (some w) env fnc st _ ha with
      h | h | h | ⟨l, hl, he⟩
    · simp at h
    · simp at h
    · simp [failEventOf] at h
    · have hfo : (connectLoop env.permit env.accts env.cb (some w)
          (env.initAccounts.getD [])).fuelOut = false :=
        goLoop_fuelOut env.permit env.accts env.cb (some w) 6 0 _ [] 0 (by omega)
      have hm : acctMatch (some w) l = true :=
        goLoop_accounts_match env.permit env.accts env.cb (some w) 6 0 _ [] 0 l hfo hl
      simp only [acctMatch] at hm
      obtain ⟨x, hx, hpx⟩ := List.any_eq_true.mp hm
      have hsome : (l.find? (fun a => a.toUpper == w.toUpper)).isSome :=
        List.find?_isSome.mpr ⟨x, hx, hpx⟩
      obtain ⟨s, hs⟩ := Option.isSome_iff_exists.mp hsome
      have hps := List.find?_some hs
      refine ⟨s, ?_, by simpa using hps⟩
      simp only [Event.walletConnected.injEq] at he
      rw [he]
      simp [selectAccount, hs]
  · intro hd hcur hall
    have hev0 := detectNetworkTrueV1_true_events cfg env st hd
    have hacc := detectNetworkTrueV1_account cfg env st
    have hnm := goLoop_nomatch env.permit env.accts env.cb (some w) 6 0
      (env.initAccounts.getD []) [] 0 hcur hall (by omega)
    unfold connectWalletV1
    dsimp only
    rw [if_pos hd]
    by_cases hfp : (fnc && !env.forcePermit) = true
    · rw [if_pos hfp]
      refine ⟨hacc.1, Or.inr ?_, ?_⟩
      · rw [hev0]
        simp
      · intro a hmem
        rw [hev0] at hmem
        simp at hmem
    · rw [if_neg hfp]
      rw [show (connectLoop env.permit env.accts env.cb (some w)
          (env.initAccounts.getD [])).accounts = none from hnm.1]
      refine ⟨hacc.1, ?_, ?_⟩
      · rcases hnm.2 with h | h
        · refine Or.inl ?_
          rw [hev0]
          simpa [failEventOf] using List.mem_append_right [] h
        · refine Or.inr ?_
          rw [hev0]
          simpa using List.mem_append_right [] h
      · intro a hmem
        rw [hev0] at hmem
        simp only [List.nil_append] at hmem
        rcases goLoop_events_mem env.permit env.accts env.cb (some w) 6 0 _ [] 0 _ hmem with
          h | h | h
        · simp at h
        · simp [failEventOf] at h
        · simp at h

/-- C3 witness: configured address `"0XA"` on a run that passes the network
check through a successful switch (chain 1 to chain 17) with a forced
reconnect, every permission request granted and an always-empty account
list. -/
theorem c3_witness :
    (connectWalletV1 17 (some "0XA") envSwitch true st0).state.account = st0.account ∧
      (Event.invalidWallet ∈ (connectWalletV1 17 (some "0XA") envSwitch true st0).events ∨
        Event.failedToConnectWallet ∈ (connectWalletV1 17 (some "0XA") envSwitch true st0).events) ∧
      ∀ a, Event.walletConnected a ∉ (connectWalletV1 17 (some "0XA") envSwitch true st0).events :=
  (c3_allowed_address 17 "0XA" envSwitch true st0).2 (by decide) (by decide)
    (fun _ => rfl)

/-- C2 counterexample: started from the same connected state and the same
provider responses (a `wallet_revokePermissions` request that throws),
`disconnectWallet` of version A clears the account and emits
`walletDisconnected` while version B keeps the account and emits nothing, so
the two versions are not behaviourally identical. -/
theorem c2_counterexample :
    (disconnectWalletV1 { account := some "0xA", signer := none, currentChainId := none }).1.account = none ∧
      Event.walletDisconnected ∈ (disconnectWalletV1 { account := some "0xA", signer := none, currentChainId := none }).2 ∧
      (disconnectWalletV2 true false { account := some "0xA", signer := none, currentChainId := none }).state.account = some "0xA" ∧
      (disconnectWalletV2 true false { account := some "0xA", signer := none, currentChainId := none }).events = [] ∧
      ¬ ((disconnectWalletV2 true false { account := some "0xA", signer := none, currentChainId := none }).state =
            (disconnectWalletV1 { account := some "0xA", signer := none, currentChainId := none }).1 ∧
          (disconnectWalletV2 true false { account := some "0xA", signer := none, currentChainId := none }).events =
            (disconnectWalletV1 { account := some "0xA", signer := none, currentChainId := none }).2) := by
  decide

/-- C2 (amended): the two versions are not behaviourally identical on every
public operation; what does hold is that the six public getters have the same
value on every state in both versions, and that `disconnectWallet` produces
the same resulting state and events in both versions whenever the
`wallet_revokePermissions` request of version B succeeds (version B also
issues that extra provider request, and its `init` requires a prior `setup`). -/
theorem c2_versions_agree :
    (∀ s : GetterState,
      providerGetterV1 s = providerGetterV2 s ∧
        signerGetterV1 s = signerGetterV2 s ∧
        accountGetterV1 s = accountGetterV2 s ∧
        currentChainIdGetterV1 s = currentChainIdGetterV2 s ∧
        isCorrectNetworkGetterV1 s = isCorrectNetworkGetterV2 s ∧
        isWalletConnectedGetterV1 s = isWalletConnectedGetterV2 s) ∧
      (∀ st : WState,
        (disconnectWalletV2 true true st).err = none ∧
          (disconnectWalletV2 true true st).state = (disconnectWalletV1 st).1 ∧
          (disconnectWalletV2 true true st).events = (disconnectWalletV1 st).2) := by
  constructor
  · intro s
    exact ⟨rfl, rfl, rfl, rfl, rfl, rfl⟩
  · intro st
    by_cases h : st.account.isSome <;>
      simp [disconnectWalletV1, disconnectWalletV2, h]

/-- C6: a successful `init` registers the `chainChanged` listener, and the
listener re-reads the chain id, stores it, and emits `networkSwitched` with a
boolean that is true exactly when the new chain id equals the configured
`chain_id`. -/
theorem c6_chain_change_listener (nd : Option NetworkData) (sw : Option String)
    (env : ConnEnv) (autoConnect : Bool) (st : WState)
    (h : checkShouldNetworkDataIsCorrect nd = none) :
    (initV1 false nd sw env autoConnect true st).error = none ∧
      (initV1 false nd sw env autoConnect true st).listenerRegistered = true ∧
      ∀ (newChain : Nat) (s : WState),
        (chainChangedHandlerV1 (chainIdOf nd) newChain s).1.currentChainId = some newChain ∧
          Event.networkSwitched (newChain == chainIdOf nd) ∈
            (chainChangedHandlerV1 (chainIdOf nd) newChain s).2 ∧
          ((newChain == chainIdOf nd) = true ↔ newChain = chainIdOf nd) := by
  refine ⟨by simp [initV1, h], by simp [initV1, h], ?_⟩
  intro newChain s
  by_cases hc : (newChain == chainIdOf nd) = true
  · simp [chainChangedHandlerV1, detectNetworkFalseV1, hc]
    exact beq_iff_eq.mp hc
  · have hne : newChain ≠ chainIdOf nd := by
      intro hcontra
      exact hc (by simp [hcontra])
    by_cases ha : s.account.isSome <;>
      simp [chainChangedHandlerV1, detectNetworkFalseV1, disconnectWalletV1,
        hc, ha, hne]

/-- C6 witness: a valid descriptor for chain 97 with a provider present. -/
theorem c6_witness :
    (initV1 false (some ndOk) none envW true true st0).error = none ∧
      (initV1 false (some ndOk) none envW true true st0).listenerRegistered = true ∧
      ∀ (newChain : Nat) (s : WState),
        (chainChangedHandlerV1 (chainIdOf (some ndOk)) newChain s).1.currentChainId = some newChain ∧
          Event.networkSwitched (newChain == chainIdOf (some ndOk)) ∈
            (chainChangedHandlerV1 (chainIdOf (some ndOk)) newChain s).2 ∧
          ((newChain == chainIdOf (some ndOk)) = true ↔ newChain = chainIdOf (some ndOk)) :=
  c6_chain_change_listener (some ndOk) none envW true st0 rfl

/-- C7: the contract wrapper's `call` (and version B `signedCall`, which has
the same body over the signer-backed contract) never re-throws: a throwing
underlying call yields the `onError` result (null for a nullish result, which
`Option` models directly) or null without a handler; and `send` returns the
extracted error object (`e?.info?.error ?? (e?.innerError ?? e)`) when the
underlying call or `txn.wait()` throws, never propagating the exception. -/
theorem c7_error_normalization (α ρ : Type) :
    (∀ (e : Err) (h : Err → Option α),
      callWrapper (Except.error e) (some h) = Except.ok (h e)) ∧
      (∀ e : Err,
        callWrapper (Except.error e) (none : Option (Err → Option α)) = Except.ok none) ∧
      (∀ (o : Except Err α) (onErr : Option (Err → Option α)),
        ∃ x, callWrapper o onErr = Except.ok x) ∧
      (∀ (e : Err) (wo : Except Err ρ),
        sendWrapper ρ (Except.error e) wo = Except.ok (extractErr ρ e)) ∧
      (∀ e : Err,
        sendWrapper ρ (Except.ok ()) (Except.error e) = Except.ok (extractErr ρ e)) ∧
      (∀ (co : Except Err Unit) (wo : Except Err ρ),
        ∃ x, sendWrapper ρ co wo = Except.ok x) := by
  refine ⟨fun e h => rfl, fun e => rfl, ?_, fun e wo => rfl, fun e => rfl, ?_⟩
  · intro o onErr
    cases o with
    | ok v => exact ⟨some v, rfl⟩
    | error e =>
        cases onErr with
        | some h => exact ⟨h e, rfl⟩
        | none => exact ⟨none, rfl⟩
  · intro co wo
    cases co with
    | error e => exact ⟨extractErr ρ e, rfl⟩
    | ok u =>
        cases wo with
        | error e => exact ⟨extractErr ρ e, rfl⟩
        | ok r => exact ⟨SendOut.receipt r, rfl⟩

/-- C8 counterexample: `init` does not throw only on a bad descriptor — with
a complete, valid descriptor it still throws when no browser provider is
found, so "init throws exactly when the descriptor is null/undefined or a
required field is undefined" is false. -/
theorem c8_counterexample :
    checkShouldNetworkDataIsCorrect (some ndOk) = none ∧
      (initV1 false (some ndOk) none envW true false st0).error =
        some "You should install MetaMask." := by
  exact ⟨rfl, rfl⟩

/-- C8 (amended): the descriptor validation performed by `init`
(`#checkShouldNetworkDataIsCorrect`) throws exactly when the descriptor is
null/undefined or one of `chain_id`, `chain_name`, `currency_name`,
`currency_symbol`, `rpc_url` is undefined; `block_explorer_url` (and
`currency_decimals`) are never consulted, and no check beyond field presence
is performed.  With a provider present and not yet initialized, `init`'s
thrown message is exactly the validation result; `init` can additionally
throw for non-descriptor reasons (already initialized, no provider). -/
theorem c8_descriptor_validation :
    (∀ nd : Option NetworkData,
      checkShouldNetworkDataIsCorrect nd ≠ none ↔
        (nd = none ∨ ∃ d, nd = some d ∧
          (d.chain_id = none ∨ d.chain_name = none ∨ d.currency_name = none ∨
            d.currency_symbol = none ∨ d.rpc_url = none))) ∧
      (∀ (d : NetworkData) (x : Option String) (y : Option Nat),
        checkShouldNetworkDataIsCorrect
            (some { d with block_explorer_url := x, currency_decimals := y }) =
          checkShouldNetworkDataIsCorrect (some d)) ∧
      (∀ (nd : Option NetworkData) (sw : Option String) (env : ConnEnv)
          (autoConnect : Bool) (st : WState),
        (initV1 false nd sw env autoConnect true st).error =
          checkShouldNetworkDataIsCorrect nd) := by
  refine ⟨?_, ?_, ?_⟩
  · intro nd
    cases nd with
    | none => simp [checkShouldNetworkDataIsCorrect]
    | some d =>
        simp only [checkShouldNetworkDataIsCorrect]
        repeat' split
        all_goals simp_all
  · intro d x y
    cases d
    rfl
  · intro nd sw env autoConnect st
    cases h : checkShouldNetworkDataIsCorrect nd with
    | none => simp [initV1, h]
    | some m => simp [initV1, h]

/-- C9: in every state, `isWalletConnected()` returns true exactly when
`account()` returns a defined value, and `account()` never returns `null`
(a null internal `#account` is coalesced to `undefined`); this holds for
both versions, and since it is a property of every state it is preserved by
every public operation. -/
theorem c9_getter_consistency (s : GetterState) :
    (isWalletConnectedGetterV1 s = true ↔ accountGetterV1 s ≠ JSVal.undef) ∧
      accountGetterV1 s ≠ JSVal.nullv ∧
      (isWalletConnectedGetterV2 s = true ↔ accountGetterV2 s ≠ JSVal.undef) ∧
      accountGetterV2 s ≠ JSVal.nullv := by
  cases h : s.account <;>
    simp [isWalletConnectedGetterV1, accountGetterV1,
      isWalletConnectedGetterV2, accountGetterV2, h]

lemma cacheGet_put_of_none (c : Cache) (a : String) (inst : ContractInst)
    (h : cacheGet c a = none) : cacheGet (cachePut c a inst) a = some inst := by
  induction c with
  | nil => simp [cacheGet, cachePut, List.find?]
  | cons p t ih =>
      cases hp : (p.1 == a) with
      | true => simp [cacheGet, List.find?, hp] at h
      | false =>
          simp only [cacheGet, cachePut, List.append, List.find?, hp] at h ⊢
          exact ih h

lemma cacheGet_put_of_some (c : Cache) (a b : String) (inst cinst : ContractInst)
    (h : cacheGet c a = some cinst) :
    cacheGet (cachePut c b inst) a = some cinst := by
  induction c with
  | nil => simp [cacheGet, List.find?] at h
  | cons p t ih =>
      cases hp : (p.1 == a) with
      | true =>
          simp only [cacheGet, List.find?, hp, Option.map_some] at h
          simp only [cacheGet, cachePut, List.append, List.find?, hp,
            Option.map_some]
          exact h
      | false =>
          simp only [cacheGet, cachePut, List.append, List.find?, hp] at h ⊢
          exact ih h

lemma contractV2_hit_eq (sc pc : Cache) (addr : String) (abi : Nat)
    (cp cs : ContractInst) (h1 : cacheGet pc addr = some cp)
    (h2 : cacheGet sc addr = some cs) :
    contractV2 sc pc addr abi = ((sc, pc), (cp, cs)) := by
  simp [contractV2, h1, h2]

lemma contractV2_hits (sc pc : Cache) (addr : String) (abi : Nat) :
    cacheGet (contractV2 sc pc addr abi).1.2 addr =
        some (contractV2 sc pc addr abi).2.1 ∧
      cacheGet (contractV2 sc pc addr abi).1.1 addr =
        some (contractV2 sc pc addr abi).2.2 := by
  cases h1 : cacheGet pc addr with
  | some cp =>
      cases h2 : cacheGet sc addr with
      | some cs => simp [contractV2, h1, h2]
      | none => simp [contractV2, h1, h2, cacheGet_put_of_none sc addr _ h2]
  | none =>
      cases h2 : cacheGet sc addr with
      | some cs =>
          simp [contractV2, h1, h2, cacheGet_put_of_none pc addr _ h1]
      | none =>
          simp [contractV2, h1, h2, cacheGet_put_of_none pc addr _ h1,
            cacheGet_put_of_none sc addr _ h2]

lemma contractV1_hit_eq (sc pc : Cache) (addr : String) (abi : Nat)
    (flag : Bool) (c : ContractInst)
    (h : cacheGet (if flag then sc else pc) addr = some c) :
    contractV1 sc pc addr abi flag = ((sc, pc), c) := by
  cases flag <;> simp_all [contractV1]

lemma contractV1_hits (sc pc : Cache) (addr : String) (abi : Nat)
    (flag : Bool) :
    cacheGet (if flag then (contractV1 sc pc addr abi flag).1.1
        else (contractV1 sc pc addr abi flag).1.2) addr =
      some (contractV1 sc pc addr abi flag).2 := by
  cases flag with
  | true =>
      cases h : cacheGet sc addr with
      | some c => simp [contractV1, h]
      | none => simp [contractV1, h, cacheGet_put_of_none sc addr _ h]
  | false =>
      cases h : cacheGet pc addr with
      | some c => simp [contractV1, h]
      | none => simp [contractV1, h, cacheGet_put_of_none pc addr _ h]

/-- C10 counterexample: in version A, after a first call
`contract("0xC", ABI with id 1, isSigner = false)` (whose instance sits in the
provider cache), a second call for the same address with `isSigner = true`
constructs a fresh `Contract` from its ABI argument, so the ABI of the second
call does affect the returned wrapper. -/
theorem c10_counterexample :
    (contractV1 [] [("0xC", { address := "0xC", abi := 1 })] "0xC" 2 true).2 ≠
      (contractV1 [] [("0xC", { address := "0xC", abi := 1 })] "0xC" 3 true).2 := by
  decide

/-- C10 (amended): contract instances are cached per address and a cache hit
ignores the ABI.  In version B, any second `contract` call with the same
address (and no intervening `destroy`) returns wrappers over the same pair of
`Contract` instances, whatever its ABI argument, and `contract` calls for
other addresses never evict existing entries; in version A the same holds for
two calls using the same `isSigner` flag (the two caches are keyed by address
only). -/
theorem c10_cache_ignores_abi :
    (∀ (sc pc : Cache) (addr : String) (abi abi2 : Nat),
      contractV2 (contractV2 sc pc addr abi).1.1 (contractV2 sc pc addr abi).1.2
          addr abi2 =
        ((contractV2 sc pc addr abi).1, (contractV2 sc pc addr abi).2)) ∧
      (∀ (sc pc : Cache) (addr addr2 : String) (abi : Nat) (c : ContractInst),
        cacheGet pc addr = some c →
        cacheGet (contractV2 sc pc addr2 abi).1.2 addr = some c) ∧
      (∀ (sc pc : Cache) (addr addr2 : String) (abi : Nat) (c : ContractInst),
        cacheGet sc addr = some c →
        cacheGet (contractV2 sc pc addr2 abi).1.1 addr = some c) ∧
      (∀ (sc pc : Cache) (addr : String) (abi abi2 : Nat) (flag : Bool),
        contractV1 (contractV1 sc pc addr abi flag).1.1
            (contractV1 sc pc addr abi flag).1.2 addr abi2 flag =
          ((contractV1 sc pc addr abi flag).1, (contractV1 sc pc addr abi flag).2)) := by
  refine ⟨?_, ?_, ?_, ?_⟩
  · intro sc pc addr abi abi2
    obtain ⟨h1, h2⟩ := contractV2_hits sc pc addr abi
    exact contractV2_hit_eq _ _ _ _ _ _ h1 h2
  · intro sc pc addr addr2 abi c hc
    cases h1 : cacheGet pc addr2 with
    | some cp =>
        cases h2 : cacheGet sc addr2 with
        | some cs => simpa [contractV2, h1, h2] using hc
        | none => simpa [contractV2, h1, h2] using hc
    | none =>
        cases h2 : cacheGet sc addr2 with
        | some cs =>
            simpa [contractV2, h1, h2] using cacheGet_put_of_some pc addr addr2 _ _ hc
        | none =>
            simpa [contractV2, h1, h2] using cacheGet_put_of_some pc addr addr2 _ _ hc
  · intro sc pc addr addr2 abi c hc
    cases h1 : cacheGet pc addr2 with
    | some cp =>
        cases h2 : cacheGet sc addr2 with
        | some cs => simpa [contractV2, h1, h2] using hc
        | none =>
            simpa [contractV2, h1, h2] using cacheGet_put_of_some sc addr addr2 _ _ hc
    | none =>
        cases h2 : cacheGet sc addr2 with
        | some cs => simpa [contractV2, h1, h2] using hc
        | none =>
            simpa [contractV2, h1, h2] using cacheGet_put_of_some sc addr addr2 _ _ hc
  · intro sc pc addr abi abi2 flag
    have h := contractV1_hits sc pc addr abi flag
    exact contractV1_hit_eq _ _ _ _ _ _ h

/-- C10 witness: a provider-cache entry for `"0xC"` survives a `contract`
call for a different address `"0xD"`. -/
theorem c10_witness :
    cacheGet (contractV2 [] [("0xC", { address := "0xC", abi := 1 })] "0xD" 2).1.2 "0xC" =
      some { address := "0xC", abi := 1 } :=
  c10_cache_ignores_abi.2.1 [] [("0xC", { address := "0xC", abi := 1 })]
    "0xC" "0xD" 2 { address := "0xC", abi := 1 } rfl

end EWC
